import Mathlib

/-!
Shallow embedding of the NYC congestion-pricing pipeline (pipeline.py).

The pipeline is a sequence of DuckDB SQL passes over taxi-trip parquet
files.  Tables are modelled as lists of records, SQL WHERE clauses as
filters keeping exactly the rows whose condition evaluates to TRUE under
SQL three-valued logic (modelled by `Option Bool`, `none` standing for
SQL NULL), and nullable columns as `Option` fields.  Timestamps are
modelled abstractly: a record of the calendar fields the SQL extracts
(`EXTRACT(YEAR/MONTH/HOUR/DOW ...)`) together with an epoch-seconds
value used for timestamp subtraction.
-/

/-- An abstract timestamp: the fields the SQL passes extract, plus the
epoch value used for `EXTRACT(EPOCH FROM (dropoff_time - pickup_time))`. -/
structure Timestamp where
  year : Int
  month : Int
  hour : Int
  weekday : Int
  epoch : Rat
deriving DecidableEq

/-- The literal fleet tag added by `create_unified_schema`. -/
inductive TaxiType where
  | Yellow
  | Green
deriving DecidableEq

/-- One row of the `unified_trips` table produced by `create_unified_schema`:
taxi_type, pickup_time, dropoff_time, pickup_loc, dropoff_loc,
trip_distance, fare, tip_amount, total_amount, congestion_surcharge.
Timestamps and the congestion surcharge are nullable. -/
structure Trip where
  taxi_type : TaxiType
  pickup_time : Option Timestamp
  dropoff_time : Option Timestamp
  pickup_loc : Int
  dropoff_loc : Int
  trip_distance : Rat
  fare : Rat
  tip_amount : Rat
  total_amount : Rat
  congestion_surcharge : Option Rat
deriving DecidableEq

/-- SQL three-valued NOT. -/
def sqlNot : Option Bool → Option Bool
  | some b => some (!b)
  | none => none

/-- SQL three-valued AND: FALSE dominates NULL. -/
def sqlAnd : Option Bool → Option Bool → Option Bool
  | some false, _ => some false
  | _, some false => some false
  | some true, some true => some true
  | _, _ => none

/-- SQL three-valued OR: TRUE dominates NULL. -/
def sqlOr : Option Bool → Option Bool → Option Bool
  | some true, _ => some true
  | _, some true => some true
  | some false, some false => some false
  | _, _ => none

/-- `EXTRACT(EPOCH FROM (dropoff_time - pickup_time))`: NULL when either
timestamp is NULL. -/
def durationSeconds (t : Trip) : Option Rat :=
  match t.pickup_time, t.dropoff_time with
  | some p, some d => some (d.epoch - p.epoch)
  | _, _ => none

/-- The `duration_minutes` column of `trips_with_metrics`:
`EXTRACT(EPOCH FROM (dropoff_time - pickup_time)) / 60`. -/
def duration_minutes (t : Trip) : Option Rat :=
  (durationSeconds t).map (fun s => s / 60)

/-- The `avg_speed_mph` column of `trips_with_metrics`: the CASE expression
yields `trip_distance / (epoch / 3600)` when the epoch difference is a
non-NULL positive value and 0 otherwise (a NULL WHEN-condition falls
through to ELSE). -/
def avg_speed_mph (t : Trip) : Rat :=
  match durationSeconds t with
  | some s => if 0 < s then t.trip_distance / (s / 3600) else 0
  | none => 0

/-- The cutoff filter `WHERE EXTRACT(YEAR FROM pickup_time) >= 2023` of
`ghost_trip_filter`: a NULL pickup_time gives a NULL condition, which the
WHERE clause drops. -/
def cutoff2023 (t : Trip) : Bool :=
  match t.pickup_time with
  | some p => decide (2023 ≤ p.year)
  | none => false

/-- The `trips_with_metrics` table: the unified table restricted to the
pickup-year cutoff (the derived metric columns are the functions
`duration_minutes` and `avg_speed_mph`). -/
def trips_with_metrics (unified : List Trip) : List Trip :=
  unified.filter cutoff2023

/-- SQL comparison `duration_minutes < 1`: NULL when the duration is NULL. -/
def sqlLtOne (x : Option Rat) : Option Bool :=
  x.map (fun v => decide (v < 1))

/-- The ghost-trip WHERE condition of `ghost_trip_filter`, under SQL
three-valued logic:
`avg_speed_mph > 65 OR (duration_minutes < 1 AND fare > 20)
 OR (trip_distance = 0 AND fare > 0)`. -/
def ghostCond (t : Trip) : Option Bool :=
  sqlOr (some (decide (65 < avg_speed_mph t)))
    (sqlOr (sqlAnd (sqlLtOne (duration_minutes t)) (some (decide (20 < t.fare))))
      (some (decide (t.trip_distance = 0) && decide (0 < t.fare))))

/-- The `ghost_trips` table (persisted as `audit_log.parquet`): rows of
`trips_with_metrics` where the ghost condition is TRUE. -/
def ghost_trips (unified : List Trip) : List Trip :=
  (trips_with_metrics unified).filter (fun t => decide (ghostCond t = some true))

/-- The `clean_trips` table: rows of `trips_with_metrics` where the negated
ghost condition is TRUE. -/
def clean_trips (unified : List Trip) : List Trip :=
  (trips_with_metrics unified).filter (fun t => decide (sqlNot (ghostCond t) = some true))

lemma sqlAnd_some_some (a b : Bool) : sqlAnd (some a) (some b) = some (a && b) := by
  cases a <;> cases b <;> rfl

lemma sqlOr_some_some (a b : Bool) : sqlOr (some a) (some b) = some (a || b) := by
  cases a <;> cases b <;> rfl

lemma sqlOr_some_true (x : Option Bool) : sqlOr x (some true) = some true := by
  match x with
  | none => rfl
  | some true => rfl
  | some false => rfl

lemma sqlNot_eq_some_true (x : Option Bool) : sqlNot x = some true ↔ x = some false := by
  match x with
  | none => simp [sqlNot]
  | some b => cases b <;> simp [sqlNot]

lemma mem_ghost_iff (unified : List Trip) (t : Trip) :
    t ∈ ghost_trips unified ↔ t ∈ unified ∧ cutoff2023 t = true ∧ ghostCond t = some true := by
  simp only [ghost_trips, trips_with_metrics, List.mem_filter, decide_eq_true_eq]
  tauto

lemma mem_clean_iff (unified : List Trip) (t : Trip) :
    t ∈ clean_trips unified ↔ t ∈ unified ∧ cutoff2023 t = true ∧ ghostCond t = some false := by
  simp only [clean_trips, trips_with_metrics, List.mem_filter, decide_eq_true_eq,
    sqlNot_eq_some_true]
  tauto

lemma ghostCond_of_timestamps (t : Trip) (p d : Timestamp)
    (hp : t.pickup_time = some p) (hd : t.dropoff_time = some d) :
    ghostCond t = some (decide (65 < avg_speed_mph t)
      || ((decide ((d.epoch - p.epoch) / 60 < 1) && decide (20 < t.fare))
      || (decide (t.trip_distance = 0) && decide (0 < t.fare)))) := by
  have hds : durationSeconds t = some (d.epoch - p.epoch) := by
    unfold durationSeconds; rw [hp, hd]
  have h1 : sqlLtOne (duration_minutes t) = some (decide ((d.epoch - p.epoch) / 60 < 1)) := by
    unfold sqlLtOne duration_minutes
    rw [hds]
    rfl
  unfold ghostCond
  rw [h1, sqlAnd_some_some, sqlOr_some_some, sqlOr_some_some]

/-- Claim C9: a unified record with a NULL pickup timestamp is dropped by
the year-cutoff filter of `ghost_trip_filter` before classification, so it
appears in neither the clean-trips table nor the audit-log table. -/
theorem claim_C9 (unified : List Trip) (t : Trip) (h : t.pickup_time = none) :
    t ∉ ghost_trips unified ∧ t ∉ clean_trips unified := by
  constructor
  · intro hmem
    rcases (mem_ghost_iff unified t).mp hmem with ⟨-, hcut, -⟩
    unfold cutoff2023 at hcut
    rw [h] at hcut
    exact Bool.false_ne_true hcut
  · intro hmem
    rcases (mem_clean_iff unified t).mp hmem with ⟨-, hcut, -⟩
    unfold cutoff2023 at hcut
    rw [h] at hcut
    exact Bool.false_ne_true hcut

/-- A unified record with a NULL pickup timestamp, used to instantiate C9. -/
def nullPickupTrip : Trip :=
  ⟨TaxiType.Yellow, none, some ⟨2025, 3, 10, 2, 600⟩, 100, 4, 2, 10, 1, 12, some 1⟩

/-- Witness for C9 at a concrete record. -/
theorem claim_C9_witness :
    nullPickupTrip ∉ ghost_trips [nullPickupTrip] ∧
      nullPickupTrip ∉ clean_trips [nullPickupTrip] :=
  claim_C9 [nullPickupTrip] nullPickupTrip rfl

lemma ghostCond_of_null_dropoff (t : Trip) (hd : t.dropoff_time = none)
    (hf : ¬ 20 < t.fare) :
    ghostCond t = some (decide (t.trip_distance = 0) && decide (0 < t.fare)) := by
  have hds : durationSeconds t = none := by
    unfold durationSeconds; rw [hd]; cases t.pickup_time <;> rfl
  have hlt : sqlLtOne (duration_minutes t) = none := by
    unfold sqlLtOne duration_minutes; rw [hds]; rfl
  have hsp : avg_speed_mph t = 0 := by
    unfold avg_speed_mph; rw [hds]
  have h2 : decide (20 < t.fare) = false := decide_eq_false hf
  have hA : decide (65 < avg_speed_mph t) = false := decide_eq_false (by rw [hsp]; norm_num)
  unfold ghostCond
  rw [hlt, h2, hA]
  cases hc : (decide (t.trip_distance = 0) && decide (0 < t.fare)) <;> rfl

lemma ghostCond_of_null_dropoff_highfare (t : Trip) (_hd : t.dropoff_time = none)
    (hf : 20 < t.fare) (hz : t.trip_distance = 0) : ghostCond t = some true := by
  have hfp : (0 : Rat) < t.fare := lt_trans (by norm_num) hf
  have h3 : (decide (t.trip_distance = 0) && decide (0 < t.fare)) = true := by
    simp [hz, hfp]
  unfold ghostCond
  rw [h3, sqlOr_some_true, sqlOr_some_true]

/-- A cutoff-passing record with a NULL dropoff timestamp, fare above 20 and
nonzero distance: its ghost condition evaluates to SQL NULL, so
`ghost_trip_filter` places it in neither output table. -/
def droppedTrip : Trip :=
  ⟨TaxiType.Yellow, some ⟨2024, 6, 12, 1, 0⟩, none, 100, 200, 5, 30, 0, 30, some 0⟩

/-- Counterexample to C1 as stated: `droppedTrip` passes the 2023 pickup-year
cutoff, yet it appears in neither the audit-log table nor the clean-trips
table, because its SQL anomaly condition evaluates to NULL. -/
theorem claim_C1_cex :
    cutoff2023 droppedTrip = true ∧
      ghost_trips [droppedTrip] = [] ∧ clean_trips [droppedTrip] = [] := by
  decide

/-- Claim C1 (amended): every cutoff-filtered record, except those whose
dropoff timestamp is NULL while fare exceeds 20 and distance is nonzero
(whose anomaly condition evaluates to SQL NULL), lands in exactly one of the
audit-log table and the clean-trips table. -/
theorem claim_C1 (unified : List Trip) (t : Trip) (hmem : t ∈ unified)
    (hcut : cutoff2023 t = true)
    (hnd : ¬(t.dropoff_time = none ∧ 20 < t.fare ∧ t.trip_distance ≠ 0)) :
    (t ∈ ghost_trips unified ∧ t ∉ clean_trips unified) ∨
      (t ∉ ghost_trips unified ∧ t ∈ clean_trips unified) := by
  have hsome : ∃ b, ghostCond t = some b := by
    cases hpu : t.pickup_time with
    | none =>
      unfold cutoff2023 at hcut
      rw [hpu] at hcut
      exact absurd hcut Bool.false_ne_true
    | some p =>
      cases hdo : t.dropoff_time with
      | some d => exact ⟨_, ghostCond_of_timestamps t p d hpu hdo⟩
      | none =>
        by_cases hf : 20 < t.fare
        · have hz : t.trip_distance = 0 := by
            by_contra hne
            exact hnd ⟨hdo, hf, hne⟩
          exact ⟨true, ghostCond_of_null_dropoff_highfare t hdo hf hz⟩
        · exact ⟨_, ghostCond_of_null_dropoff t hdo hf⟩
  obtain ⟨b, hb⟩ := hsome
  cases b with
  | false =>
    right
    constructor
    · intro hg
      rcases (mem_ghost_iff _ _).mp hg with ⟨-, -, hgt⟩
      rw [hb] at hgt
      simp at hgt
    · exact (mem_clean_iff _ _).mpr ⟨hmem, hcut, hb⟩
  | true =>
    left
    constructor
    · exact (mem_ghost_iff _ _).mpr ⟨hmem, hcut, hb⟩
    · intro hc
      rcases (mem_clean_iff _ _).mp hc with ⟨-, -, hct⟩
      rw [hb] at hct
      simp at hct

/-- An ordinary clean record: 10-minute trip at 12 mph, used to instantiate
the amended partition theorem. -/
def normalTrip : Trip :=
  ⟨TaxiType.Green, some ⟨2024, 5, 9, 2, 0⟩, some ⟨2024, 5, 9, 2, 600⟩, 100, 4, 2, 10, 1, 12,
    some 2⟩

/-- Witness for the amended C1 at a concrete record. -/
theorem claim_C1_witness :
    (normalTrip ∈ ghost_trips [normalTrip] ∧ normalTrip ∉ clean_trips [normalTrip]) ∨
      (normalTrip ∉ ghost_trips [normalTrip] ∧ normalTrip ∈ clean_trips [normalTrip]) :=
  claim_C1 [normalTrip] normalTrip (List.mem_singleton.mpr rfl) (by decide) (by decide)

/-- Claim C2: a cutoff-filtered record with both timestamps present lands in
the audit-log table exactly when average speed exceeds 65 mph, or the trip
lasts under one minute with fare above 20, or the distance is zero with a
positive fare; a record of the clean table satisfies none of the three. -/
theorem claim_C2 (unified : List Trip) (t : Trip) (p d : Timestamp)
    (hmem : t ∈ unified) (hp : t.pickup_time = some p) (hd : t.dropoff_time = some d)
    (hcut : 2023 ≤ p.year) :
    (t ∈ ghost_trips unified ↔
      (65 < avg_speed_mph t ∨ ((d.epoch - p.epoch) / 60 < 1 ∧ 20 < t.fare) ∨
        (t.trip_distance = 0 ∧ 0 < t.fare))) ∧
    (t ∈ clean_trips unified →
      ¬(65 < avg_speed_mph t ∨ ((d.epoch - p.epoch) / 60 < 1 ∧ 20 < t.fare) ∨
        (t.trip_distance = 0 ∧ 0 < t.fare))) := by
  have hcutb : cutoff2023 t = true := by
    unfold cutoff2023; rw [hp]; exact decide_eq_true hcut
  have hg := ghostCond_of_timestamps t p d hp hd
  constructor
  · rw [mem_ghost_iff, hg]
    constructor
    · rintro ⟨-, -, hb⟩
      have hb2 := Option.some.inj hb
      simpa [Bool.or_eq_true, Bool.and_eq_true, decide_eq_true_eq] using hb2
    · intro hpred
      refine ⟨hmem, hcutb, ?_⟩
      congr 1
      simpa [Bool.or_eq_true, Bool.and_eq_true, decide_eq_true_eq] using hpred
  · intro hcl
    rcases (mem_clean_iff _ _).mp hcl with ⟨-, -, hcf⟩
    rw [hg] at hcf
    have hb2 := Option.some.inj hcf
    intro hpred
    have hb3 : (decide (65 < avg_speed_mph t)
        || ((decide ((d.epoch - p.epoch) / 60 < 1) && decide (20 < t.fare))
        || (decide (t.trip_distance = 0) && decide (0 < t.fare)))) = true := by
      simpa [Bool.or_eq_true, Bool.and_eq_true, decide_eq_true_eq] using hpred
    rw [hb3] at hb2
    simp at hb2

/-- A 200 mph record (20 miles in 6 minutes): caught by the speed predicate. -/
def speedingTrip : Trip :=
  ⟨TaxiType.Yellow, some ⟨2025, 1, 8, 3, 0⟩, some ⟨2025, 1, 8, 3, 360⟩, 50, 4, 20, 30, 5, 40,
    some 2⟩

/-- Witness for C2 at a concrete speeding record. -/
theorem claim_C2_witness : speedingTrip ∈ ghost_trips [speedingTrip] :=
  ((claim_C2 [speedingTrip] speedingTrip ⟨2025, 1, 8, 3, 0⟩ ⟨2025, 1, 8, 3, 360⟩
    (List.mem_singleton.mpr rfl) rfl rfl (by decide)).1).mpr
    (Or.inl (by norm_num [avg_speed_mph, durationSeconds, speedingTrip]))

/-- The WHERE clause building `entering_zone` in `congestion_leakage_audit`:
the pickup zone has no match in the congestion-zone table, the dropoff zone
has one, and the pickup year is at least 2024 (NULL pickup year drops the
row). -/
def enteringPred (zones : List Int) (t : Trip) : Bool :=
  decide (t.pickup_loc ∉ zones) && decide (t.dropoff_loc ∈ zones) &&
    (match t.pickup_time with
     | some p => decide (2024 ≤ p.year)
     | none => false)

/-- The `entering_zone` table of `congestion_leakage_audit`, built from the
persisted clean-trips table. -/
def entering_zone (zones : List Int) (trips : List Trip) : List Trip :=
  trips.filter (enteringPred zones)

/-- The CASE condition of the compliance count: TRUE exactly when the
congestion surcharge is non-NULL and positive. -/
def hasPosSurcharge (t : Trip) : Bool :=
  match t.congestion_surcharge with
  | some s => decide (0 < s)
  | none => false

/-- `total_entering` of the `compliance_stats` table: `COUNT(*)` over the
entering-zone table. -/
def compliance_total (zones : List Int) (trips : List Trip) : Nat :=
  (entering_zone zones trips).length

/-- `compliant_trips` of the `compliance_stats` table: the sum over the
entering-zone table of `CASE WHEN congestion_surcharge > 0 THEN 1 ELSE 0`. -/
def compliance_compliant (zones : List Int) (trips : List Trip) : Nat :=
  (entering_zone zones trips).countP hasPosSurcharge

/-- The WHERE clause of the `leakage_trips` table:
`congestion_surcharge IS NULL OR congestion_surcharge <= 0`. -/
def leakagePred (t : Trip) : Bool :=
  match t.congestion_surcharge with
  | some s => decide (s ≤ 0)
  | none => true

/-- The `leakage_trips` table: entering-zone rows without a positive
surcharge. -/
def leakage_trips (zones : List Int) (trips : List Trip) : List Trip :=
  (entering_zone zones trips).filter leakagePred

/-- Claim C3: every leakage trip is an entering trip with NULL or
non-positive surcharge; every entering trip is a clean trip with pickup year
at least 2024 whose pickup zone lies outside and dropoff zone inside the
congestion-zone set; and the compliance statistics count exactly the
entering trips with positive surcharge. -/
theorem claim_C3 (zones : List Int) (unified : List Trip) :
    (∀ t, t ∈ leakage_trips zones (clean_trips unified) →
      t ∈ entering_zone zones (clean_trips unified) ∧
        (t.congestion_surcharge = none ∨
          ∃ s, t.congestion_surcharge = some s ∧ s ≤ 0)) ∧
    (∀ t, t ∈ entering_zone zones (clean_trips unified) →
      t ∈ clean_trips unified ∧ t.pickup_loc ∉ zones ∧ t.dropoff_loc ∈ zones ∧
        ∃ p, t.pickup_time = some p ∧ 2024 ≤ p.year) ∧
    compliance_compliant zones (clean_trips unified) =
      ((entering_zone zones (clean_trips unified)).filter hasPosSurcharge).length ∧
    compliance_total zones (clean_trips unified) =
      (entering_zone zones (clean_trips unified)).length := by
  refine ⟨?_, ?_, ?_, ?_⟩
  · intro t ht
    rcases List.mem_filter.mp ht with ⟨hent, hleak⟩
    refine ⟨hent, ?_⟩
    unfold leakagePred at hleak
    cases hs : t.congestion_surcharge with
    | none => exact Or.inl rfl
    | some s =>
      rw [hs] at hleak
      exact Or.inr ⟨s, rfl, of_decide_eq_true hleak⟩
  · intro t ht
    rcases List.mem_filter.mp ht with ⟨hcl, hpred⟩
    unfold enteringPred at hpred
    simp only [Bool.and_eq_true] at hpred
    obtain ⟨⟨h1, h2⟩, h3⟩ := hpred
    refine ⟨hcl, of_decide_eq_true h1, of_decide_eq_true h2, ?_⟩
    cases hp : t.pickup_time with
    | none => rw [hp] at h3; exact absurd h3 Bool.false_ne_true
    | some p =>
      rw [hp] at h3
      exact ⟨p, rfl, of_decide_eq_true h3⟩
  · exact List.countP_eq_length_filter _ _
  · rfl

/-- A clean 2024 trip entering the congestion zone with a zero surcharge:
a leakage record. -/
def leakTrip : Trip :=
  ⟨TaxiType.Yellow, some ⟨2024, 7, 15, 4, 0⟩, some ⟨2024, 7, 15, 4, 1200⟩, 100, 4, 3, 18, 2, 21,
    some 0⟩

/-- Witness for C3 at a concrete leakage record. -/
theorem claim_C3_witness :
    leakTrip ∈ entering_zone [4] (clean_trips [leakTrip]) ∧
      (leakTrip.congestion_surcharge = none ∨
        ∃ s, leakTrip.congestion_surcharge = some s ∧ s ≤ 0) :=
  (claim_C3 [4] [leakTrip]).1 leakTrip (by
    have hcl : leakTrip ∈ clean_trips [leakTrip] := by
      rw [mem_clean_iff]
      refine ⟨List.mem_singleton.mpr rfl, by decide, ?_⟩
      rw [ghostCond_of_timestamps leakTrip ⟨2024, 7, 15, 4, 0⟩ ⟨2024, 7, 15, 4, 1200⟩ rfl rfl]
      norm_num [avg_speed_mph, durationSeconds, leakTrip]
    exact List.mem_filter.mpr ⟨List.mem_filter.mpr ⟨hcl, by decide⟩, by decide⟩)

/-- One row of the `taxi_zone_lookup` table: zone id, borough, zone name. -/
structure ZoneRow where
  LocationID : Int
  Borough : String
  ZoneName : String
deriving DecidableEq

/-- Whether `pat` occurs as a contiguous substring of `s`: the meaning of
the SQL pattern match `Zone LIKE '%pat%'` for a pattern without wildcard
characters. -/
def containsSub (pat : List Char) : List Char → Bool
  | [] => pat.isEmpty
  | c :: rest => pat.isPrefixOf (c :: rest) || containsSub pat rest

/-- `Zone LIKE '%pat%'` on a lookup row. -/
def zoneLike (r : ZoneRow) (pat : String) : Bool :=
  containsSub pat.toList r.ZoneName.toList

/-- The WHERE clause of `build_congestion_zone_reference`: borough equals
Manhattan and the zone name matches none of the three excluded patterns. -/
def congestionZonePred (r : ZoneRow) : Bool :=
  decide (r.Borough = "Manhattan") && !(zoneLike r "Harlem") && !(zoneLike r "Inwood") &&
    !(zoneLike r "Washington Heights")

/-- The `congestion_zone` table: the LocationIDs selected by
`build_congestion_zone_reference`. -/
def congestion_zone (lookup : List ZoneRow) : List Int :=
  (lookup.filter congestionZonePred).map (fun r => r.LocationID)

/-- The `border_zones` table of `border_effect_analysis`: lookup rows in
Manhattan whose LocationID has no match in the congestion-zone table. -/
def border_zones (lookup : List ZoneRow) : List Int :=
  (lookup.filter (fun r =>
    decide (r.Borough = "Manhattan") && decide (r.LocationID ∉ congestion_zone lookup))).map
    (fun r => r.LocationID)

/-- Claim C4: the congestion-zone set is exactly the Manhattan zone ids whose
name contains none of the three excluded substrings; the border-zone set is
exactly the Manhattan zone ids outside the congestion-zone set; the two sets
are disjoint and both lie inside the Manhattan zone-id set. -/
theorem claim_C4 (lookup : List ZoneRow) :
    (∀ z, z ∈ congestion_zone lookup ↔
      ∃ r ∈ lookup, r.LocationID = z ∧ r.Borough = "Manhattan" ∧
        zoneLike r "Harlem" = false ∧ zoneLike r "Inwood" = false ∧
        zoneLike r "Washington Heights" = false) ∧
    (∀ z, z ∈ border_zones lookup ↔
      (∃ r ∈ lookup, r.LocationID = z ∧ r.Borough = "Manhattan") ∧
        z ∉ congestion_zone lookup) ∧
    (∀ z, ¬(z ∈ congestion_zone lookup ∧ z ∈ border_zones lookup)) ∧
    (∀ z, z ∈ congestion_zone lookup →
      ∃ r ∈ lookup, r.LocationID = z ∧ r.Borough = "Manhattan") ∧
    (∀ z, z ∈ border_zones lookup →
      ∃ r ∈ lookup, r.LocationID = z ∧ r.Borough = "Manhattan") := by
  have hcz : ∀ z, z ∈ congestion_zone lookup ↔
      ∃ r ∈ lookup, r.LocationID = z ∧ r.Borough = "Manhattan" ∧
        zoneLike r "Harlem" = false ∧ zoneLike r "Inwood" = false ∧
        zoneLike r "Washington Heights" = false := by
    intro z
    unfold congestion_zone
    simp only [List.mem_map, List.mem_filter, congestionZonePred, Bool.and_eq_true,
      Bool.not_eq_true', decide_eq_true_eq]
    constructor
    · rintro ⟨r, ⟨hr, ⟨⟨⟨hb, hh⟩, hi⟩, hw⟩⟩, hid⟩
      exact ⟨r, hr, hid, hb, hh, hi, hw⟩
    · rintro ⟨r, hr, hid, hb, hh, hi, hw⟩
      exact ⟨r, ⟨hr, ⟨⟨⟨hb, hh⟩, hi⟩, hw⟩⟩, hid⟩
  have hbz : ∀ z, z ∈ border_zones lookup ↔
      (∃ r ∈ lookup, r.LocationID = z ∧ r.Borough = "Manhattan") ∧
        z ∉ congestion_zone lookup := by
    intro z
    unfold border_zones
    simp only [List.mem_map, List.mem_filter, Bool.and_eq_true, decide_eq_true_eq]
    constructor
    · rintro ⟨r, ⟨hr, ⟨hb, hnotin⟩⟩, hid⟩
      exact ⟨⟨r, hr, hid, hb⟩, hid ▸ hnotin⟩
    · rintro ⟨⟨r, hr, hid, hb⟩, hnotin⟩
      exact ⟨r, ⟨hr, ⟨hb, hid ▸ hnotin⟩⟩, hid⟩
  refine ⟨hcz, hbz, ?_, ?_, ?_⟩
  · rintro z ⟨hin, hbo⟩
    exact ((hbz z).mp hbo).2 hin
  · intro z hin
    rcases (hcz z).mp hin with ⟨r, hr, hid, hb, -⟩
    exact ⟨r, hr, hid, hb⟩
  · intro z hin
    rcases (hbz z).mp hin with ⟨⟨r, hr, hid, hb⟩, -⟩
    exact ⟨r, hr, hid, hb⟩

/-- A small concrete zone-lookup table: two Manhattan zones (one excluded by
name) and one zone in another borough. -/
def zlk0 : List ZoneRow :=
  [⟨4, "Manhattan", "Midtown Center"⟩, ⟨41, "Manhattan", "Central Harlem"⟩,
    ⟨7, "Queens", "Astoria"⟩]

/-- Witness for C4 at a concrete lookup table. -/
theorem claim_C4_witness :
    ∃ r ∈ zlk0, r.LocationID = 41 ∧ r.Borough = "Manhattan" :=
  (claim_C4 zlk0).2.2.2.2 41 (by decide)

/-- The join condition of the `entering_zone` table in `yellow_green_decline`:
pickup outside, dropoff inside the congestion zone — with no pickup-year
floor, since this pass applies none. -/
def enteringAllPred (zones : List Int) (t : Trip) : Bool :=
  decide (t.pickup_loc ∉ zones) && decide (t.dropoff_loc ∈ zones)

/-- The `entering_zone` table of `yellow_green_decline`, built from the
table this pass actually reads. -/
def entering_all (zones : List Int) (trips : List Trip) : List Trip :=
  trips.filter (enteringAllPred zones)

/-- The `q1_data` WHERE clause: pickup month in 1..3 and pickup year in
2024 or 2025 (NULL pickup drops the row). -/
def q1Pred (t : Trip) : Bool :=
  match t.pickup_time with
  | some p => decide (p.month = 1 ∨ p.month = 2 ∨ p.month = 3) &&
      decide (p.year = 2024 ∨ p.year = 2025)
  | none => false

/-- The grouping key of `q1_comparison`: taxi type and pickup year. -/
def q1KeyPred (ty : TaxiType) (yr : Int) (t : Trip) : Bool :=
  decide (t.taxi_type = ty) &&
    (match t.pickup_time with
     | some p => decide (p.year = yr)
     | none => false)

/-- The `q1_data` table of `yellow_green_decline`. -/
def q1_data (zones : List Int) (trips : List Trip) : List Trip :=
  (entering_all zones trips).filter q1Pred

/-- The `trips` value of one `q1_comparison` row: the count for a given
(taxi type, year) group. -/
def q1_trip_count (zones : List Int) (trips : List Trip) (ty : TaxiType) (yr : Int) : Nat :=
  (q1_data zones trips).countP (q1KeyPred ty yr)

/-- A ghost trip (zero distance, positive fare) entering the congestion zone
in February 2024. -/
def ghostQ1Trip : Trip :=
  ⟨TaxiType.Yellow, some ⟨2024, 2, 10, 3, 0⟩, none, 999, 4, 0, 10, 0, 10, none⟩

/-- Counterexample to C5 as stated: `yellow_green_decline` reads the unified
table, so with a unified table holding one anomalous (audit-log) trip the Q1
comparison counts it, while the clean partition is empty and would give a
count of zero. -/
theorem claim_C5_cex :
    clean_trips [ghostQ1Trip] = [] ∧
      ghostQ1Trip ∈ ghost_trips [ghostQ1Trip] ∧
      q1_trip_count [4] [ghostQ1Trip] TaxiType.Yellow 2024 = 1 ∧
      q1_trip_count [4] (clean_trips [ghostQ1Trip]) TaxiType.Yellow 2024 = 0 := by
  decide

/-- Claim C5 (amended): the fleet-decline Q1 comparison is drawn from the
unified table, not the clean partition — each (taxi type, year) count equals
the number of unified-table records (anomalous ones included) that enter the
congestion zone during Q1 of that year. -/
theorem claim_C5 (zones : List Int) (unified : List Trip) (ty : TaxiType) (yr : Int) :
    q1_trip_count zones unified ty yr =
      unified.countP (fun t => enteringAllPred zones t && q1Pred t && q1KeyPred ty yr t) := by
  unfold q1_trip_count q1_data entering_all
  rw [List.countP_filter, List.countP_filter]
  refine List.countP_congr ?_
  intro t _
  cases h1 : enteringAllPred zones t <;> cases h2 : q1Pred t <;>
    cases h3 : q1KeyPred ty yr t <;> simp [h1, h2, h3]

/-- One row of reference-December summary statistics, as produced by the
imputation SELECT: trip count, mean distance, mean fare, mean total, mean
surcharge (the count is carried as a number, as in the dataframe blend). -/
structure RefStats where
  trips : Rat
  avg_distance : Rat
  avg_fare : Rat
  avg_total : Rat
  avg_surcharge : Rat
deriving DecidableEq

/-- The imputed December row of `impute_december_if_missing`:
`0.3 * stats23 + 0.7 * stats24`, a componentwise dataframe operation. -/
def weighted_december (s23 s24 : RefStats) : RefStats :=
  ⟨0.3 * s23.trips + 0.7 * s24.trips,
   0.3 * s23.avg_distance + 0.7 * s24.avg_distance,
   0.3 * s23.avg_fare + 0.7 * s24.avg_fare,
   0.3 * s23.avg_total + 0.7 * s24.avg_total,
   0.3 * s23.avg_surcharge + 0.7 * s24.avg_surcharge⟩

/-- Claim C6: the imputed December row is the componentwise blend of the two
reference years with weights 0.3 and 0.7; in particular reference average
fares 10 and 20 blend to 17. -/
theorem claim_C6 :
    (∀ s23 s24 : RefStats,
      (weighted_december s23 s24).trips = 0.3 * s23.trips + 0.7 * s24.trips ∧
      (weighted_december s23 s24).avg_distance =
        0.3 * s23.avg_distance + 0.7 * s24.avg_distance ∧
      (weighted_december s23 s24).avg_fare = 0.3 * s23.avg_fare + 0.7 * s24.avg_fare ∧
      (weighted_december s23 s24).avg_total = 0.3 * s23.avg_total + 0.7 * s24.avg_total ∧
      (weighted_december s23 s24).avg_surcharge =
        0.3 * s23.avg_surcharge + 0.7 * s24.avg_surcharge) ∧
    (weighted_december ⟨100, 3, 10, 15, 1⟩ ⟨200, 3, 20, 25, 1⟩).avg_fare = 17 := by
  refine ⟨fun s23 s24 => ⟨rfl, rfl, rfl, rfl, rfl⟩, ?_⟩
  norm_num [weighted_december]

/-- The `COUNT(*)` of the `border_counts` group for (zone, year): the
dropoffs in border zones for that pickup year (`COALESCE(trips, 0)` when the
group is absent, i.e. the count is zero). -/
def border_dropoff_count (border : List Int) (trips : List Trip) (z yr : Int) : Nat :=
  trips.countP (fun t => decide (t.dropoff_loc ∈ border) &&
    (match t.pickup_time with
     | some p => decide (p.year = yr)
     | none => false) && decide (t.dropoff_loc = z))

/-- One side of the full outer join over `border_counts`: `some c` when the
(zone, year) group exists (its count is then positive), `none` when the zone
has no row for that year. -/
def border_count_row (border : List Int) (trips : List Trip) (z yr : Int) : Option Nat :=
  if 0 < border_dropoff_count border trips z yr then
    some (border_dropoff_count border trips z yr)
  else none

/-- The `percent_change` CASE expression of `border_change`:
`100.0 * (COALESCE(b.trips, 0) - a.trips) / a.trips` when
`COALESCE(a.trips, 0) > 0`, else NULL. -/
def percent_change (a b : Option Nat) : Option Rat :=
  match a with
  | some v => if 0 < v then some (100 * (((b.getD 0 : Nat) : Rat) - (v : Rat)) / (v : Rat))
      else none
  | none => none

/-- The `percent_change` column of the `border_change` row for zone `z`. -/
def border_percent_change (border : List Int) (trips : List Trip) (z : Int) : Option Rat :=
  percent_change (border_count_row border trips z 2024) (border_count_row border trips z 2025)

/-- Claim C7: the percent change of a border zone equals
`100 * (count2025 - count2024) / count2024` when its 2024 count is positive
and is SQL NULL (no value, not zero, not an error) when its 2024 count is
zero. -/
theorem claim_C7 (border : List Int) (trips : List Trip) (z : Int) :
    (0 < border_dropoff_count border trips z 2024 →
      border_percent_change border trips z =
        some (100 * ((border_dropoff_count border trips z 2025 : Rat) -
          (border_dropoff_count border trips z 2024 : Rat)) /
          (border_dropoff_count border trips z 2024 : Rat))) ∧
    (border_dropoff_count border trips z 2024 = 0 →
      border_percent_change border trips z = none) := by
  constructor
  · intro h24
    have hrow : border_count_row border trips z 2024 =
        some (border_dropoff_count border trips z 2024) := by
      unfold border_count_row
      rw [if_pos h24]
    have hgd : (border_count_row border trips z 2025).getD 0 =
        border_dropoff_count border trips z 2025 := by
      unfold border_count_row
      by_cases h25 : 0 < border_dropoff_count border trips z 2025
      · rw [if_pos h25]
        rfl
      · rw [if_neg h25]
        simp [Nat.eq_zero_of_not_pos h25]
    unfold border_percent_change percent_change
    rw [hrow]
    simp only [hgd]
    rw [if_pos h24]
  · intro h24
    have hrow : border_count_row border trips z 2024 = none := by
      unfold border_count_row
      rw [if_neg (by rw [h24]; exact lt_irrefl 0)]
    unfold border_percent_change
    rw [hrow]
    rfl

/-- A dropoff into border zone `z` with pickup year `yr`. -/
def bTrip (yr z : Int) : Trip :=
  ⟨TaxiType.Yellow, some ⟨yr, 5, 9, 2, 0⟩, none, 100, z, 1, 5, 0, 5, none⟩

/-- Concrete clean-trip contents: zone 5 has 10 dropoffs in 2024 and 15 in
2025; zone 9 has none in 2024 and 5 in 2025. -/
def btr0 : List Trip :=
  List.replicate 10 (bTrip 2024 5) ++ List.replicate 15 (bTrip 2025 5) ++
    List.replicate 5 (bTrip 2025 9)

/-- Witness for C7: counts (10, 15) give 50 percent; counts (0, 5) give NULL. -/
theorem claim_C7_witness :
    border_percent_change [5, 9] btr0 5 = some 50 ∧
      border_percent_change [5, 9] btr0 9 = none := by
  have h24 : border_dropoff_count [5, 9] btr0 5 2024 = 10 := by decide
  have h25 : border_dropoff_count [5, 9] btr0 5 2025 = 15 := by decide
  constructor
  · have h := (claim_C7 [5, 9] btr0 5).1 (by rw [h24]; norm_num)
    rw [h, h24, h25]
    norm_num [Option.some.injEq]
  · exact (claim_C7 [5, 9] btr0 9).2 (by decide)

/-- The `speed_mph` column of `speed_metrics` in
`congestion_velocity_heatmap`: recomputed from the raw columns, with NULL
(not 0) when the epoch difference is not a non-NULL positive value. -/
def speed_metric (t : Trip) : Option Rat :=
  match durationSeconds t with
  | some s => if 0 < s then some (t.trip_distance / (s / 3600)) else none
  | none => none

/-- The `zone_trips` table of `congestion_velocity_heatmap`: clean trips
whose pickup zone is in the congestion zone. -/
def zone_trips (zones : List Int) (trips : List Trip) : List Trip :=
  trips.filter (fun t => decide (t.pickup_loc ∈ zones))

lemma speed_metric_eq_avg (t : Trip) (s : Rat) (h : speed_metric t = some s) :
    s = avg_speed_mph t := by
  unfold speed_metric at h
  unfold avg_speed_mph
  cases hds : durationSeconds t with
  | none =>
    rw [hds] at h
    exact absurd h (Option.noConfusion)
  | some v =>
    rw [hds] at h
    change (if 0 < v then some (t.trip_distance / (v / 3600)) else none) = some s at h
    change s = if 0 < v then t.trip_distance / (v / 3600) else 0
    by_cases hv : 0 < v
    · rw [if_pos hv] at h ⊢
      exact (Option.some.inj h).symm
    · rw [if_neg hv] at h
      exact absurd h (Option.noConfusion)

lemma filterMap_speed_metric (l : List Trip) :
    l.filterMap speed_metric =
      (l.filter (fun t => (speed_metric t).isSome)).map avg_speed_mph := by
  induction l with
  | nil => rfl
  | cons t l ih =>
    cases hs : speed_metric t with
    | none => simp [List.filterMap_cons, List.filter_cons, hs, ih]
    | some s =>
      simp [List.filterMap_cons, List.filter_cons, hs, ih,
        speed_metric_eq_avg t s hs]

/-- Claim C8: the speed values the velocity heatmap aggregates over the
in-zone clean trips are exactly the persisted `avg_speed_mph` values of the
contributing trips (the non-NULL recomputed speed always equals the
ghost-filter metric), so the recomputation does not change the aggregated
values. -/
theorem claim_C8 (zones : List Int) (unified : List Trip) :
    ((zone_trips zones (clean_trips unified)).filterMap speed_metric =
      ((zone_trips zones (clean_trips unified)).filter
        (fun t => (speed_metric t).isSome)).map avg_speed_mph) ∧
    (∀ t s, t ∈ zone_trips zones (clean_trips unified) → speed_metric t = some s →
      s = avg_speed_mph t) := by
  exact ⟨filterMap_speed_metric _, fun t s _ h => speed_metric_eq_avg t s h⟩

/-- Witness for C8: `normalTrip` is clean, picked up in zone 100, and its
recomputed heatmap speed (12 mph over 10 minutes) equals its persisted
metric. -/
theorem claim_C8_witness :
    (12 : Rat) = avg_speed_mph normalTrip := by
  refine (claim_C8 [100] [normalTrip]).2 normalTrip 12 ?_ ?_
  · have hcl : normalTrip ∈ clean_trips [normalTrip] := by
      rw [mem_clean_iff]
      refine ⟨List.mem_singleton.mpr rfl, by decide, ?_⟩
      rw [ghostCond_of_timestamps normalTrip ⟨2024, 5, 9, 2, 0⟩ ⟨2024, 5, 9, 2, 600⟩ rfl rfl]
      norm_num [avg_speed_mph, durationSeconds, normalTrip]
    exact List.mem_filter.mpr ⟨hcl, by decide⟩
  · norm_num [speed_metric, durationSeconds, normalTrip]

/-- One raw per-trip record of a source parquet file, before the fleet tag
is attached (the per-fleet SELECTs rename columns but carry the same
canonical payload). -/
structure RawTrip where
  pickup_time : Option Timestamp
  dropoff_time : Option Timestamp
  pickup_loc : Int
  dropoff_loc : Int
  trip_distance : Rat
  fare : Rat
  tip_amount : Rat
  total_amount : Rat
  congestion_surcharge : Option Rat
deriving DecidableEq

/-- The per-fleet SELECT of `create_unified_schema`: attach the literal
taxi-type tag to a raw record. -/
def tagTrip (ty : TaxiType) (r : RawTrip) : Trip :=
  ⟨ty, r.pickup_time, r.dropoff_time, r.pickup_loc, r.dropoff_loc, r.trip_distance, r.fare,
    r.tip_amount, r.total_amount, r.congestion_surcharge⟩

/-- The data folder: the named parquet files with their per-trip contents. -/
abbrev DataFolder := List (String × List RawTrip)

/-- `os.path.exists` on the data folder. -/
def fileExists (folder : DataFolder) (name : String) : Bool :=
  folder.any (fun f => decide (f.1 = name))

/-- The body of the download loops: fetch and store a file only when it is
not already present. -/
def addFileIfMissing (folder : DataFolder) (name : String) (content : List RawTrip) :
    DataFolder :=
  if fileExists folder name then folder else folder ++ [(name, content)]

/-- The filename pattern of `download_if_missing`:
`(fleet)_tripdata_(year)-(month).parquet`. -/
def tripFileName (fleet year month : String) : String :=
  fleet ++ "_tripdata_" ++ year ++ "-" ++ month ++ ".parquet"

/-- `download_if_missing year month`: fetch the yellow file then the green
file for the period, each only if absent (`fetch` stands for the network
read of a URL ending in that filename). -/
def download_if_missing (fetch : String → List RawTrip) (year month : String)
    (folder : DataFolder) : DataFolder :=
  addFileIfMissing
    (addFileIfMissing folder (tripFileName "yellow" year month)
      (fetch (tripFileName "yellow" year month)))
    (tripFileName "green" year month)
    (fetch (tripFileName "green" year month))

/-- `containsSub` lifted to strings (the Python substring test
`"2025-12" in file`). -/
def strContains (s pat : String) : Bool :=
  containsSub pat.toList s.toList

/-- `december_missing`: no file name in the folder mentions 2025-12. -/
def december_missing (folder : DataFolder) : Bool :=
  !(folder.any (fun f => strContains f.1 "2025-12"))

/-- `impute_december_if_missing`, restricted to its file-system effect: when
December 2025 is missing, download the 2023-12 and 2024-12 reference files
(yellow and green each). -/
def impute_december_if_missing (fetch : String → List RawTrip) (folder : DataFolder) :
    DataFolder :=
  if december_missing folder then
    download_if_missing fetch "2024" "12" (download_if_missing fetch "2023" "12" folder)
  else folder

/-- A one-star glob `pre*suf` as used by `read_parquet`: the name starts
with `pre`, ends with `suf`, and is long enough for the two not to
overlap. -/
def matchesGlob (pre suf name : String) : Bool :=
  pre.toList.isPrefixOf name.toList && suf.toList.isSuffixOf name.toList &&
    decide (pre.toList.length + suf.toList.length ≤ name.toList.length)

/-- `create_unified_schema`: all rows of every `yellow_*.parquet` file in
the data folder tagged Yellow, followed by all rows of every
`green_*.parquet` file tagged Green (UNION ALL, no deduplication). -/
def create_unified_schema (folder : DataFolder) : List Trip :=
  ((folder.filter (fun f => matchesGlob "yellow_" ".parquet" f.1)).flatMap
    (fun f => f.2.map (tagTrip TaxiType.Yellow))) ++
  ((folder.filter (fun f => matchesGlob "green_" ".parquet" f.1)).flatMap
    (fun f => f.2.map (tagTrip TaxiType.Green)))

lemma fileExists_addFileIfMissing_self (folder : DataFolder) (name : String)
    (content : List RawTrip) : fileExists (addFileIfMissing folder name content) name = true := by
  unfold addFileIfMissing
  split
  · assumption
  · simp [fileExists, List.any_append]

lemma fileExists_addFileIfMissing_mono (folder : DataFolder) (name name2 : String)
    (content : List RawTrip) (h : fileExists folder name = true) :
    fileExists (addFileIfMissing folder name2 content) name = true := by
  unfold addFileIfMissing
  split
  · exact h
  · unfold fileExists at h ⊢
    rw [List.any_append, h]
    rfl

lemma mem_unified_yellow (folder : DataFolder) (name : String) (content : List RawTrip)
    (r : RawTrip) (hmem : (name, content) ∈ folder)
    (hglob : matchesGlob "yellow_" ".parquet" name = true) (hr : r ∈ content) :
    tagTrip TaxiType.Yellow r ∈ create_unified_schema folder := by
  unfold create_unified_schema
  refine List.mem_append_left _ ?_
  refine List.mem_flatMap.mpr ⟨(name, content), List.mem_filter.mpr ⟨hmem, hglob⟩, ?_⟩
  exact List.mem_map.mpr ⟨r, hr, rfl⟩

lemma mem_unified_green (folder : DataFolder) (name : String) (content : List RawTrip)
    (r : RawTrip) (hmem : (name, content) ∈ folder)
    (hglob : matchesGlob "green_" ".parquet" name = true) (hr : r ∈ content) :
    tagTrip TaxiType.Green r ∈ create_unified_schema folder := by
  unfold create_unified_schema
  refine List.mem_append_right _ ?_
  refine List.mem_flatMap.mpr ⟨(name, content), List.mem_filter.mpr ⟨hmem, hglob⟩, ?_⟩
  exact List.mem_map.mpr ⟨r, hr, rfl⟩

/-- Claim C10: when December 2025 is absent, the imputer leaves the four
reference December files in the data folder; their names match the yellow
and green wildcard reads of the Schema Unifier; and every record of any
folder file matching those wildcards — the December reference files
included — appears (with its fleet tag) in the unified table built from the
post-imputation folder. -/
theorem claim_C10 (fetch : String → List RawTrip) (folder : DataFolder)
    (hmiss : december_missing folder = true) :
    (fileExists (impute_december_if_missing fetch folder)
        (tripFileName "yellow" "2023" "12") = true ∧
      fileExists (impute_december_if_missing fetch folder)
        (tripFileName "green" "2023" "12") = true ∧
      fileExists (impute_december_if_missing fetch folder)
        (tripFileName "yellow" "2024" "12") = true ∧
      fileExists (impute_december_if_missing fetch folder)
        (tripFileName "green" "2024" "12") = true) ∧
    (matchesGlob "yellow_" ".parquet" (tripFileName "yellow" "2023" "12") = true ∧
      matchesGlob "green_" ".parquet" (tripFileName "green" "2023" "12") = true ∧
      matchesGlob "yellow_" ".parquet" (tripFileName "yellow" "2024" "12") = true ∧
      matchesGlob "green_" ".parquet" (tripFileName "green" "2024" "12") = true) ∧
    (∀ name content r, (name, content) ∈ impute_december_if_missing fetch folder →
      matchesGlob "yellow_" ".parquet" name = true → r ∈ content →
      tagTrip TaxiType.Yellow r ∈
        create_unified_schema (impute_december_if_missing fetch folder)) ∧
    (∀ name content r, (name, content) ∈ impute_december_if_missing fetch folder →
      matchesGlob "green_" ".parquet" name = true → r ∈ content →
      tagTrip TaxiType.Green r ∈
        create_unified_schema (impute_december_if_missing fetch folder)) := by
  have himp : impute_december_if_missing fetch folder =
      download_if_missing fetch "2024" "12" (download_if_missing fetch "2023" "12" folder) := by
    unfold impute_december_if_missing
    rw [if_pos hmiss]
  refine ⟨?_, ⟨by decide, by decide, by decide, by decide⟩, ?_, ?_⟩
  · rw [himp]
    unfold download_if_missing
    refine ⟨?_, ?_, ?_, ?_⟩
    · exact fileExists_addFileIfMissing_mono _ _ _ _
        (fileExists_addFileIfMissing_mono _ _ _ _
          (fileExists_addFileIfMissing_mono _ _ _ _
            (fileExists_addFileIfMissing_self _ _ _)))
    · exact fileExists_addFileIfMissing_mono _ _ _ _
        (fileExists_addFileIfMissing_mono _ _ _ _
          (fileExists_addFileIfMissing_self _ _ _))
    · exact fileExists_addFileIfMissing_mono _ _ _ _
        (fileExists_addFileIfMissing_self _ _ _)
    · exact fileExists_addFileIfMissing_self _ _ _
  · intro name content r hmem hglob hr
    exact mem_unified_yellow _ name content r hmem hglob hr
  · intro name content r hmem hglob hr
    exact mem_unified_green _ name content r hmem hglob hr

/-- A concrete raw December record. -/
def rawDec : RawTrip :=
  ⟨some ⟨2023, 12, 11, 5, 0⟩, some ⟨2023, 12, 11, 5, 900⟩, 50, 4, 3, 14, 2, 16, some 2⟩

/-- A concrete fetch returning one record for every requested file. -/
def fetchOne : String → List RawTrip := fun _ => [rawDec]

/-- Witness for C10: starting from an empty folder (December 2025 missing),
the downloaded yellow 2023-12 record reaches the unified table. -/
theorem claim_C10_witness :
    tagTrip TaxiType.Yellow rawDec ∈
      create_unified_schema (impute_december_if_missing fetchOne []) :=
  (claim_C10 fetchOne [] rfl).2.2.1 (tripFileName "yellow" "2023" "12") [rawDec] rawDec
    (by decide) (by decide) (by decide)
